import Mathlib

set_option maxRecDepth 4000

/-!
Shallow embedding of the `gym_jumping_task` environments
(`jumping_task.py`, `jumping_colors_task.py`, `jumping_coordinates_task.py`).

Modelling conventions:
* All pixel positions, sizes and rewards are `Int` (the Python code only ever
  manipulates integers here; rewards are integer-valued floats).
* The Python object state of `JumpTaskEnv` (together with the extra attributes
  added by the `JumpTaskEnvWithColors` subclass) is one structure `JumpTaskEnv`.
  Methods become functions `JumpTaskEnv → ...` returning the updated structure.
* Python exceptions (`ValueError` in `_reset` and `step`, `KeyError` on a
  missing `info` entry) become explicit error values.  Because a Python
  `raise` does not undo mutations already performed on `self`, an erroring
  call still returns the (possibly mutated) structure next to the error.
* The `while` loop of the `finish_jump` feature need not terminate (e.g. when
  the horizontal speed is 0 the agent can descend forever), so it is embedded
  with explicit fuel; `none` means the loop was still running after `fuel`
  iterations, i.e. the Python call has not returned yet.
* The pixel observations produced by `get_state` (a 60×60 greyscale or RGB
  float array) are pure projections of the state that no claim constrains,
  so they are not modelled; the coordinate observation of
  `jumping_coordinates_task.py`, which a claim does constrain, is modelled
  (`coordGetState`).  Rendering (`pygame`), `seed`, and the real-time delay
  are external collaborators and do not touch the simulation state.
* Python's dynamic dispatch of `self._game_status()` inside the shared
  `step` body is embedded by parameterising the step body (`stepWith`) over
  the game-status function, instantiated with `gameStatus` for the base
  class and `colorsGameStatus` for the colors subclass.
-/

/-! ### Module-level constants of `jumping_task.py` -/

def JUMP_HEIGHT : Int := 15

def JUMP_VERTICAL_SPEED : Int := 1

def JUMP_HORIZONTAL_SPEED : Int := 1

def OBSTACLE_1 : Int := 20

def OBSTACLE_2 : Int := 55

def ALLOWED_OBSTACLE_X : List Int := [20, 30, 40]

def ALLOWED_OBSTACLE_Y : List Int := [10, 20]

def LEFT : Int := 14

def RIGHT : Int := 48

def DOWN : Int := 0

def UP : Int := 41

/-! ### State -/

/-- The jump direction stored in `self.jumping[1]`: `None`, `"up"` or `"down"`. -/
inductive JumpDir where
  | none
  | up
  | down
deriving DecidableEq, Repr

/-- `COLORS` enum of `jumping_colors_task.py` (`RED = 0`, `GREEN = 1`). -/
inductive Color where
  | red
  | green
deriving DecidableEq, Repr

/-- Error raised by `JumpTaskEnv._reset` (a Python `ValueError`). -/
inductive ResetErr where
  | outOfRangeObstacle
  | outOfRangeFloor
deriving DecidableEq, Repr

/-- Error raised by a `step` call: the `ValueError` for an unrecognised
action, or the `KeyError` of `info['collision']` in the colors subclass when
the base step returned an empty info dict. -/
inductive StepErr where
  | illegalAction
  | keyError
deriving DecidableEq, Repr

/-- The `(observation-independent part of the) return value of `step`:
reward, terminal flag, and the `info` dict, where `some b` models
`{'collision': b}` and `none` models the empty dict `{}`. -/
structure StepOut where
  reward : Int
  done : Bool
  info : Option Bool
deriving DecidableEq, Repr

/-- The Python object state of a `JumpTaskEnv` (plus the attributes added by
the `JumpTaskEnvWithColors` subclass; the base class never reads
`obstacleColor`, `alreadyCollided` or `rewardsCollision`). -/
structure JumpTaskEnv where
  -- set by `__init__`, never mutated afterwards
  scrW : Int
  scrH : Int
  rewardsLife : Int
  rewardsExit : Int
  withLeftAction : Bool
  agentSpeed : Int
  agentInitPos : Int
  agentSizeW : Int
  agentSizeH : Int
  obstacleSizeW : Int
  obstacleSizeH : Int
  maxNumberOfSteps : Nat
  finishJump : Bool
  minXPosition : Int
  maxXPosition : Int
  minYPosition : Int
  maxYPosition : Int
  -- mutable episode state
  agentPosX : Int
  agentPosY : Int
  agentCurrentSpeed : Int
  jumpingActive : Bool
  jumpingDir : JumpDir
  stepId : Nat
  done : Bool
  floorHeight : Int
  twoObstacles : Bool
  obstaclePosition : Int
  -- attributes of the `JumpTaskEnvWithColors` subclass only
  obstacleColor : Color
  rewardsCollision : Int
  alreadyCollided : Bool

namespace JumpTaskEnv

/-- `self.legal_actions`, computed in `__init__` from `with_left_action`. -/
def legalActions (e : JumpTaskEnv) : List Int :=
  if e.withLeftAction then [0, 1, 2] else [0, 1]

/-- The nested `_overlapping_objects(env, sx, sy)` of `_game_status`. -/
def overlappingObjects (e : JumpTaskEnv) (sx sy : Int) : Bool :=
  decide (sx + e.obstacleSizeW > e.agentPosX) &&
    decide (sx < e.agentPosX + e.agentSizeW) &&
    decide (sy + e.obstacleSizeH > e.agentPosY) &&
    decide (sy < e.agentPosY + e.agentSizeH)

/-- The `failure` boolean computed by `JumpTaskEnv._game_status`. -/
def failurePred (e : JumpTaskEnv) : Bool :=
  if e.twoObstacles then
    e.overlappingObjects OBSTACLE_1 e.floorHeight ||
      e.overlappingObjects OBSTACLE_2 e.floorHeight
  else
    e.overlappingObjects e.obstaclePosition e.floorHeight

/-- The `success` boolean computed by `JumpTaskEnv._game_status`:
`self.scr_w < self.agent_pos_x + self.agent_size[0]`. -/
def successPred (e : JumpTaskEnv) : Bool :=
  decide (e.scrW < e.agentPosX + e.agentSizeW)

/-- `JumpTaskEnv._game_status` (the rendering branch is skipped: it only
draws when `self.rendering`, which is external and off). -/
def gameStatus (e : JumpTaskEnv) : JumpTaskEnv × Bool × Bool :=
  let failure := e.failurePred
  let success := e.successPred
  ({ e with done := failure || success }, failure, success)

/-- `JumpTaskEnv._continue_jump`. -/
def continueJump (e : JumpTaskEnv) : JumpTaskEnv :=
  let e := { e with agentPosX := max (e.agentPosX + e.agentCurrentSpeed) 0 }
  let e :=
    if e.agentPosY > e.floorHeight + JUMP_HEIGHT then
      { e with jumpingDir := JumpDir.down }
    else e
  if e.jumpingDir = JumpDir.up then
    { e with agentPosY := e.agentPosY + e.agentSpeed * JUMP_VERTICAL_SPEED }
  else if e.jumpingDir = JumpDir.down then
    let e := { e with agentPosY := e.agentPosY - e.agentSpeed * JUMP_VERTICAL_SPEED }
    if e.agentPosY = e.floorHeight then { e with jumpingActive := false } else e
  else e

/-- `JumpTaskEnv._reset(obstacle_position, floor_height, two_obstacles)`.
The returned environment is the object state after the call, also when the
call raises (`some err`): all the assignments before the range checks have
already happened by the time the `ValueError` is raised. -/
def resetInternal (e : JumpTaskEnv) (obstaclePosition floorHeight : Int)
    (twoObstacles : Bool) : JumpTaskEnv × Option ResetErr :=
  let e := { e with
    agentPosX := e.agentInitPos
    agentPosY := floorHeight
    agentCurrentSpeed := e.agentSpeed * JUMP_HORIZONTAL_SPEED
    jumpingActive := false
    jumpingDir := JumpDir.none
    stepId := 0
    done := false
    floorHeight := floorHeight
    twoObstacles := twoObstacles }
  if twoObstacles then (e, Option.none)
  else if obstaclePosition < e.minXPosition ∨ obstaclePosition ≥ e.maxXPosition then
    (e, some ResetErr.outOfRangeObstacle)
  else if floorHeight < e.minYPosition ∨ floorHeight ≥ e.maxYPosition then
    (e, some ResetErr.outOfRangeFloor)
  else
    ({ e with obstaclePosition := obstaclePosition }, Option.none)

/-- `JumpTaskEnv.reset()`: draws `obstacle_position` from
`ALLOWED_OBSTACLE_X` and `floor_height` from `ALLOWED_OBSTACLE_Y` with the
seeded RNG and calls `_reset` (with its default `two_obstacles=False`).
The two sampled values are passed in explicitly. -/
def reset (e : JumpTaskEnv) (obstaclePosition floorHeight : Int) :
    JumpTaskEnv × Option ResetErr :=
  e.resetInternal obstaclePosition floorHeight false

/-- The action dispatch of `JumpTaskEnv.step` (the `if self.jumping[0] ... elif
action == 0 ... elif action == 1 ... elif action == 2` block).  When none of
the branches fires (impossible for a legal action) the state is unchanged,
as in Python. -/
def applyAction (e : JumpTaskEnv) (action : Int) : JumpTaskEnv :=
  if e.jumpingActive then e.continueJump
  else if action = 0 then
    { e with
      agentPosX := e.agentPosX + e.agentSpeed
      agentCurrentSpeed := e.agentSpeed * JUMP_HORIZONTAL_SPEED }
  else if action = 1 then
    continueJump { e with jumpingActive := true, jumpingDir := JumpDir.up }
  else if action = 2 then
    if e.agentPosX > 0 then
      { e with
        agentPosX := e.agentPosX - e.agentSpeed
        agentCurrentSpeed := -e.agentSpeed * JUMP_HORIZONTAL_SPEED }
    else { e with agentCurrentSpeed := 0 }
  else e

/-- The `while self.jumping[0] and not killed and not exited:` loop of the
`finish_jump` feature, parameterised over the dynamically dispatched
`_game_status` and an explicit fuel (the loop need not terminate). -/
def finishJumpLoop (gs : JumpTaskEnv → JumpTaskEnv × Bool × Bool) :
    Nat → JumpTaskEnv → Bool → Bool → Option (JumpTaskEnv × Bool × Bool)
  | 0, e, killed, exited =>
    if e.jumpingActive && !killed && !exited then Option.none
    else some (e, killed, exited)
  | fuel + 1, e, killed, exited =>
    if e.jumpingActive && !killed && !exited then
      let e := e.continueJump
      let (e, killed, exited) := gs e
      finishJumpLoop gs fuel e killed exited
    else some (e, killed, exited)

/-- The movement / game-status / finish-jump part of `JumpTaskEnv.step`:
everything between the two guards and the reward computation. -/
def stepCore (gs : JumpTaskEnv → JumpTaskEnv × Bool × Bool) (fuel : Nat)
    (e : JumpTaskEnv) (action : Int) : Option (JumpTaskEnv × Bool × Bool) :=
  let e := e.applyAction action
  let (e', killed, exited) := gs e
  if e'.finishJump then finishJumpLoop gs fuel e' killed exited
  else some (e', killed, exited)

/-- The body of `JumpTaskEnv.step`, parameterised over the dynamically
dispatched `_game_status` (`gs`).  Mirrors the source order: the step-count
guard, then the legal-action guard, then movement, game status, the optional
finish-jump loop, the reward computation and the step-count increment. -/
def stepWith (gs : JumpTaskEnv → JumpTaskEnv × Bool × Bool) (fuel : Nat)
    (e : JumpTaskEnv) (action : Int) :
    Option (JumpTaskEnv × Except StepErr StepOut) :=
  if e.stepId > e.maxNumberOfSteps then
    some ({ e with done := true }, Except.ok ⟨0, true, Option.none⟩)
  else if action ∈ e.legalActions then
    match stepCore gs fuel e action with
    | Option.none => Option.none
    | some (e', killed, exited) =>
      let reward : Int := -e.agentPosX + e'.agentPosX
      let reward :=
        if killed then e.rewardsLife
        else if exited then reward + e.rewardsExit
        else reward
      let e'' := { e' with stepId := e'.stepId + 1 }
      some (e'', Except.ok ⟨reward, e''.done, some killed⟩)
  else some (e, Except.error StepErr.illegalAction)

/-- `JumpTaskEnv.step` of the base class. -/
def step (fuel : Nat) (e : JumpTaskEnv) (action : Int) :
    Option (JumpTaskEnv × Except StepErr StepOut) :=
  stepWith gameStatus fuel e action

/-- The attribute assignments of `JumpTaskEnv.__init__` up to (but not
including) the final `self.reset()` call.  `seed`, `rendering`, `zoom` and
`slow_motion` only drive the external RNG/rendering collaborators;
`use_colors` only selects the (unmodelled) pixel observation shape.  Note
that `floor_height`, `obstacle_position` and `two_obstacles` are accepted
by `__init__` but never stored: the fields of those names are first
assigned inside `_reset`, which `__init__` reaches through `self.reset()`
(random obstacle, `two_obstacles=False`).  The episode fields that Python
leaves unbound until `_reset` runs are given placeholder values here. -/
def initAttrs (scrW scrH floorHeight : Int) (agentW agentH agentInitPos agentSpeed : Int)
    (obstaclePosition : Int) (obstacleSizeW obstacleSizeH : Int)
    (withLeftAction : Bool) (maxNumberOfSteps : Nat)
    (twoObstacles finishJump useColors : Bool) (obstacleColor : Color) : JumpTaskEnv :=
  { scrW := scrW
    scrH := scrH
    rewardsLife := -1
    rewardsExit := 100
    withLeftAction := withLeftAction
    agentSpeed := agentSpeed
    agentCurrentSpeed := agentSpeed * JUMP_HORIZONTAL_SPEED
    jumpingActive := false
    jumpingDir := JumpDir.none
    agentInitPos := agentInitPos
    agentSizeW := agentW
    agentSizeH := agentH
    obstacleSizeW := obstacleSizeW
    obstacleSizeH := obstacleSizeH
    stepId := 0
    maxNumberOfSteps := maxNumberOfSteps
    finishJump := finishJump
    minXPosition := LEFT
    maxXPosition := RIGHT
    minYPosition := DOWN
    maxYPosition := UP
    -- fields first assigned inside `_reset` (placeholders, immediately
    -- overwritten by the `self.reset()` call at the end of `__init__`)
    agentPosX := agentInitPos
    agentPosY := 0
    done := false
    floorHeight := 0
    twoObstacles := false
    obstaclePosition := 0
    -- attributes that only the colors subclass creates
    obstacleColor := obstacleColor
    rewardsCollision := 0
    alreadyCollided := false }

/-- `JumpTaskEnv.__init__`: attribute assignments followed by `self.reset()`
(whose two random draws are passed in as `sampleX`, `sampleY`). -/
def init (scrW scrH floorHeight : Int) (agentW agentH agentInitPos agentSpeed : Int)
    (obstaclePosition : Int) (obstacleSizeW obstacleSizeH : Int)
    (withLeftAction : Bool) (maxNumberOfSteps : Nat)
    (twoObstacles finishJump useColors : Bool) (sampleX sampleY : Int) :
    JumpTaskEnv × Option ResetErr :=
  reset
    (initAttrs scrW scrH floorHeight agentW agentH agentInitPos agentSpeed
      obstaclePosition obstacleSizeW obstacleSizeH withLeftAction
      maxNumberOfSteps twoObstacles finishJump useColors Color.red)
    sampleX sampleY

end JumpTaskEnv

/-! ### `JumpTaskEnvWithColors` (`jumping_colors_task.py`) -/

namespace JumpTaskEnvWithColors

open JumpTaskEnv

/-- `JumpTaskEnvWithColors._game_status`: calls the base `_game_status`,
then (for a GREEN obstacle) re-derives `done` from success alone and gates
the reported collision by `_already_collided`; finally latches
`_already_collided`. -/
def colorsGameStatus (e : JumpTaskEnv) : JumpTaskEnv × Bool × Bool :=
  let (e, collided, success) := gameStatus e
  let r :=
    if e.obstacleColor = Color.green then
      ({ e with done := success }, (!e.alreadyCollided) && collided)
    else
      ({ e with done := collided || success }, collided)
  let e := r.1
  let collided := r.2
  ({ e with alreadyCollided := e.alreadyCollided || collided }, collided, success)

/-- `JumpTaskEnvWithColors._reset`: clears `_already_collided`, then the
base `_reset`. -/
def colorsResetInternal (e : JumpTaskEnv) (obstaclePosition floorHeight : Int)
    (twoObstacles : Bool) : JumpTaskEnv × Option ResetErr :=
  resetInternal { e with alreadyCollided := false } obstaclePosition floorHeight
    twoObstacles

/-- `JumpTaskEnvWithColors.step`: the base step body (with the overridden
`_game_status` dispatched into it), then the collision bonus:
`if (self.agent_pos_y == self.floor_height) and info['collision']:
reward += self.rewards['collision']`.  Python's `and` short-circuits, so
`info['collision']` (a `KeyError` when the base step returned `info = {}`)
is only evaluated when the agent is at floor height. -/
def colorsStep (fuel : Nat) (e : JumpTaskEnv) (action : Int) :
    Option (JumpTaskEnv × Except StepErr StepOut) :=
  match stepWith colorsGameStatus fuel e action with
  | Option.none => Option.none
  | some (e', Except.error err) => some (e', Except.error err)
  | some (e', Except.ok out) =>
    if e'.agentPosY = e'.floorHeight then
      match out.info with
      | Option.none => some (e', Except.error StepErr.keyError)
      | some collision =>
        if collision then
          some (e', Except.ok { out with reward := out.reward + e'.rewardsCollision })
        else some (e', Except.ok out)
    else some (e', Except.ok out)

/-- `JumpTaskEnvWithColors.__init__(obstacle_color, **kwargs)`: stores the
color, runs the base `__init__` with `use_colors=True` (whose `self.reset()`
dispatches to `colorsResetInternal`), then sets `rewards['collision']`
(100 for GREEN, 0 otherwise) and clears `_already_collided`. -/
def colorsInit (obstacleColor : Color) (scrW scrH floorHeight : Int)
    (agentW agentH agentInitPos agentSpeed : Int) (obstaclePosition : Int)
    (obstacleSizeW obstacleSizeH : Int) (withLeftAction : Bool)
    (maxNumberOfSteps : Nat) (twoObstacles finishJump : Bool)
    (sampleX sampleY : Int) : JumpTaskEnv × Option ResetErr :=
  let pre := initAttrs scrW scrH floorHeight agentW agentH agentInitPos
    agentSpeed obstaclePosition obstacleSizeW obstacleSizeH withLeftAction
    maxNumberOfSteps twoObstacles finishJump true obstacleColor
  let r := colorsResetInternal pre sampleX sampleY false
  ({ r.1 with
      rewardsCollision := if obstacleColor = Color.green then 100 else 0
      alreadyCollided := false },
    r.2)

end JumpTaskEnvWithColors

/-! ### `JumpTaskEnvWithCoordinates` (`jumping_coordinates_task.py`) -/

namespace JumpTaskEnvWithCoordinates

open JumpTaskEnv

/-- `JumpTaskEnvWithCoordinates.get_state`:
`[self.agent_pos_x - self.obstacle_position, self.agent_pos_y - self.floor_height]`. -/
def coordGetState (e : JumpTaskEnv) : List Int :=
  [e.agentPosX - e.obstaclePosition, e.agentPosY - e.floorHeight]

/-- `self.state_shape = (3,)` declared in
`JumpTaskEnvWithCoordinates.__init__`. -/
def coordStateShape : List Nat := [3]

/-- The `low` array of the `spaces.Box` declared in
`JumpTaskEnvWithCoordinates.__init__`: `np.array([1.0 - RIGHT, 0.0])`
(integral float values, embedded as `Int`). -/
def coordObservationLow : List Int := [1 - RIGHT, 0]

/-- The `high` array of the declared `spaces.Box`:
`np.array([56.0 - LEFT, 16.0])`. -/
def coordObservationHigh : List Int := [56 - LEFT, 16]

/-- `JumpTaskEnvWithCoordinates.__init__`: the base `__init__` (the class
neither overrides `_game_status` nor `_reset`), then the observation-space
declarations above. -/
def coordInit (scrW scrH floorHeight : Int)
    (agentW agentH agentInitPos agentSpeed : Int) (obstaclePosition : Int)
    (obstacleSizeW obstacleSizeH : Int) (withLeftAction : Bool)
    (maxNumberOfSteps : Nat) (twoObstacles finishJump useColors : Bool)
    (sampleX sampleY : Int) : JumpTaskEnv × Option ResetErr :=
  init scrW scrH floorHeight agentW agentH agentInitPos agentSpeed
    obstaclePosition obstacleSizeW obstacleSizeH withLeftAction
    maxNumberOfSteps twoObstacles finishJump useColors sampleX sampleY

/-- `step` of the coordinates environment: the base step body, with the
observation it returns (`self.get_state()`, dynamically dispatched to
`coordGetState`, evaluated on the post-step state) made explicit. -/
def coordStep (fuel : Nat) (e : JumpTaskEnv) (action : Int) :
    Option (JumpTaskEnv × Except StepErr (List Int × StepOut)) :=
  match step fuel e action with
  | Option.none => Option.none
  | some (e', Except.error err) => some (e', Except.error err)
  | some (e', Except.ok out) => some (e', Except.ok (coordGetState e', out))

/-- `reset` of the coordinates environment: the base `_reset`, with the
observation it returns on success (`self.get_state()` at the reset state)
made explicit. -/
def coordReset (e : JumpTaskEnv) (obstaclePosition floorHeight : Int) :
    (JumpTaskEnv × Option ResetErr) × Option (List Int) :=
  let r := reset e obstaclePosition floorHeight
  (r, if r.2 = Option.none then some (coordGetState r.1) else Option.none)

end JumpTaskEnvWithCoordinates

/-! ### Concrete scenario environments and drivers

Drivers used to run concrete episodes for witnesses and counterexamples.
`stepEnv` extracts the post-call object state of a `step` call (with the
default configuration's `finish_jump=False` no fuel is ever consumed, so
fuel `0` is passed; the fallback branch is unreachable in these runs). -/

open JumpTaskEnv JumpTaskEnvWithColors JumpTaskEnvWithCoordinates

/-- The object state after a `step` call (fuel 0; used only on
`finish_jump=False` configurations, where the fuel is never consumed). -/
def stepEnv (e : JumpTaskEnv) (a : Int) : JumpTaskEnv :=
  match step 0 e a with
  | some (e', _) => e'
  | Option.none => e

/-- `JumpTaskEnv()` with all-default construction parameters, the initial
`self.reset()` sampling obstacle position 30 and floor height 10
(both in the allowed sets `ALLOWED_OBSTACLE_X` / `ALLOWED_OBSTACLE_Y`). -/
def e0 : JumpTaskEnv :=
  (init 60 60 10 5 10 0 1 30 9 10 false 600 false false false 30 10).1

/-- `e0` after `n` consecutive `step(0)` (move right) calls. -/
def rightN : Nat → JumpTaskEnv
  | 0 => e0
  | n + 1 => stepEnv (rightN n) 0

/-- `e0` after `n` consecutive `step(1)` (jump) calls. -/
def jumpN : Nat → JumpTaskEnv
  | 0 => e0
  | n + 1 => stepEnv (jumpN n) 1

/-- Default construction except `max_number_of_steps=0`, same reset
samples as `e0`. -/
def eMax0 : JumpTaskEnv :=
  (init 60 60 10 5 10 0 1 30 9 10 false 0 false false false 30 10).1

/-- `eMax0` after one legal step: a reachable state whose `step_id` (= 1)
exceeds `max_number_of_steps` (= 0). -/
def eExh : JumpTaskEnv := stepEnv eMax0 0

/-- `e0` after three `step(0)` calls: a mid-episode state (agent at x = 3,
`step_id = 3`) used to observe what a failing `_reset` overwrites. -/
def eS : JumpTaskEnv := rightN 3

/-- `JumpTaskEnvWithColors(obstacle_color=GREEN, agent_init_pos=25)` with
otherwise default parameters, reset samples (30, 10): the agent starts five
pixels left of the obstacle, so its first jump step collides mid-air. -/
def eColG : JumpTaskEnv :=
  (colorsInit Color.green 60 60 10 5 10 25 1 30 9 10 false 600 false false 30 10).1

/-- The object state after a `JumpTaskEnvWithColors.step` call (fuel 0). -/
def colorsStepEnv (e : JumpTaskEnv) (a : Int) : JumpTaskEnv :=
  match colorsStep 0 e a with
  | some (e', _) => e'
  | Option.none => e

/-- The reward returned by a successful `JumpTaskEnvWithColors.step` call. -/
def colorsStepReward (fuel : Nat) (e : JumpTaskEnv) (a : Int) : Option Int :=
  match colorsStep fuel e a with
  | some (_, Except.ok out) => some out.reward
  | _ => Option.none

/-- The `info['collision']` entry returned by a successful
`JumpTaskEnvWithColors.step` call. -/
def colorsStepInfo (fuel : Nat) (e : JumpTaskEnv) (a : Int) : Option (Option Bool) :=
  match colorsStep fuel e a with
  | some (_, Except.ok out) => some out.info
  | _ => Option.none

/-- The `StepOut` of a successful base `step` call (drivers for witnesses;
the fallback is unreachable there). -/
def stepOutD (fuel : Nat) (e : JumpTaskEnv) (a : Int) : StepOut :=
  match step fuel e a with
  | some (_, Except.ok out) => out
  | _ => ⟨0, false, Option.none⟩

/-- `JumpTaskEnvWithCoordinates()` with default parameters, reset samples
(30, 10). -/
def eCoord : JumpTaskEnv :=
  (coordInit 60 60 10 5 10 0 1 30 9 10 false 600 false false false 30 10).1

/-- The observation returned by a successful coordinates-variant `step`. -/
def coordStepObs (fuel : Nat) (e : JumpTaskEnv) (a : Int) : Option (List Int) :=
  match coordStep fuel e a with
  | some (_, Except.ok (obs, _)) => some obs
  | _ => Option.none

/-- The `StepOut` of a successful `JumpTaskEnvWithColors.step` call
(driver for witnesses; the fallback is unreachable there). -/
def colorsStepOutD (fuel : Nat) (e : JumpTaskEnv) (a : Int) : StepOut :=
  match colorsStep fuel e a with
  | some (_, Except.ok out) => out
  | _ => ⟨0, false, Option.none⟩

/-! ### Infrastructure lemmas shared by several claims -/

/-- `{e with done := b}` — the state with only the terminal flag replaced. -/
def setDone (e : JumpTaskEnv) (b : Bool) : JumpTaskEnv := { e with done := b }

/-- Invariant re-established by every `colorsGameStatus` call on a GREEN
environment whose `alreadyCollided` flag was `a0` beforehand: the terminal
flag is driven solely by the success predicate, a reported collision
implies the episode had not collided before (`a0 = false`) and latches
`alreadyCollided`, and an unreported collision leaves `alreadyCollided`
at `a0`. -/
def GreenInv (a0 : Bool) (e : JumpTaskEnv) (k s : Bool) : Prop :=
  e.obstacleColor = Color.green ∧ e.done = s ∧ s = successPred e ∧
    (k = true → a0 = false ∧ e.alreadyCollided = true) ∧
    (k = false → e.alreadyCollided = a0)

/-- `_game_status` spelled out. -/
theorem gameStatus_eq (e : JumpTaskEnv) :
    gameStatus e =
      ({ e with done := failurePred e || successPred e }, failurePred e, successPred e) :=
  rfl

/-- The terminal flag feeds into nothing `_continue_jump` computes. -/
theorem continueJump_setDone (e : JumpTaskEnv) (b : Bool) :
    (setDone e b).continueJump = setDone e.continueJump b := by
  unfold continueJump setDone
  dsimp only
  split_ifs <;> rfl

/-- The terminal flag feeds into nothing the action dispatch computes. -/
theorem applyAction_setDone (e : JumpTaskEnv) (b : Bool) (a : Int) :
    (setDone e b).applyAction a = setDone (e.applyAction a) b := by
  unfold applyAction
  dsimp only [setDone]
  split_ifs <;> first
    | rfl
    | exact continueJump_setDone e b
    | exact continueJump_setDone { e with jumpingActive := true, jumpingDir := JumpDir.up } b

/-- `_game_status` overwrites the terminal flag, so its result does not
depend on the flag's previous value. -/
theorem gameStatus_setDone (e : JumpTaskEnv) (b : Bool) :
    gameStatus (setDone e b) = gameStatus e :=
  rfl

/-- `_continue_jump` touches only the agent position and the jump phase. -/
theorem continueJump_preserves (e : JumpTaskEnv) :
    e.continueJump.obstacleColor = e.obstacleColor ∧
    e.continueJump.alreadyCollided = e.alreadyCollided ∧
    e.continueJump.done = e.done := by
  unfold continueJump
  dsimp only
  split_ifs <;> exact ⟨rfl, rfl, rfl⟩

/-- The action dispatch touches only the agent position, speed and jump
phase. -/
theorem applyAction_preserves (e : JumpTaskEnv) (a : Int) :
    (e.applyAction a).obstacleColor = e.obstacleColor ∧
    (e.applyAction a).alreadyCollided = e.alreadyCollided := by
  unfold applyAction
  split_ifs <;> first
    | exact ⟨rfl, rfl⟩
    | exact ⟨(continueJump_preserves _).1, (continueJump_preserves _).2.1⟩

/-- Any property of the `(state, killed, exited)` triple that each
`_game_status` call re-establishes is preserved by the `finish_jump`
loop. -/
theorem finishJumpLoop_inv (gs : JumpTaskEnv → JumpTaskEnv × Bool × Bool)
    (Q : JumpTaskEnv → Bool → Bool → Prop)
    (hQ : ∀ e, Q e false false → e.jumpingActive = true →
      Q (gs e.continueJump).1 (gs e.continueJump).2.1 (gs e.continueJump).2.2) :
    ∀ fuel e killed exited r, Q e killed exited →
      finishJumpLoop gs fuel e killed exited = some r → Q r.1 r.2.1 r.2.2 := by
  intro fuel
  induction fuel with
  | zero =>
    intro e killed exited r hq h
    unfold finishJumpLoop at h
    split at h
    · cases h
    · obtain rfl := Option.some.inj h
      exact hq
  | succ n ih =>
    intro e killed exited r hq h
    unfold finishJumpLoop at h
    split at h
    case isTrue hc =>
      simp only [Bool.and_eq_true, Bool.not_eq_true'] at hc
      obtain ⟨⟨hj, hk⟩, hx⟩ := hc
      subst hk
      subst hx
      dsimp only at h
      rcases hg : gs e.continueJump with ⟨e₂, k₂, x₂⟩
      rw [hg] at h
      dsimp only at h
      have hq₂ := hQ e hq hj
      rw [hg] at hq₂
      exact ih e₂ k₂ x₂ r hq₂ h
    case isFalse =>
      obtain rfl := Option.some.inj h
      exact hq

/-- The killed/exited booleans produced by the base-class `stepCore` are
exactly the collision/success predicates of the state it returns. -/
theorem stepCore_gameStatus_spec (fuel : Nat) (e : JumpTaskEnv) (a : Int)
    (r : JumpTaskEnv × Bool × Bool)
    (h : stepCore gameStatus fuel e a = some r) :
    r.2.1 = failurePred r.1 ∧ r.2.2 = successPred r.1 := by
  unfold stepCore at h
  dsimp only at h
  rw [gameStatus_eq] at h
  dsimp only at h
  split at h
  · refine finishJumpLoop_inv gameStatus
      (fun e' k x => k = failurePred e' ∧ x = successPred e') ?_ fuel _ _ _ r ?_ h
    · intro e' _ _
      rw [gameStatus_eq]
      exact ⟨rfl, rfl⟩
    · exact ⟨rfl, rfl⟩
  · obtain rfl := Option.some.inj h
    exact ⟨rfl, rfl⟩

/-- `JumpTaskEnvWithColors._game_status` spelled out for a GREEN
obstacle. -/
theorem colorsGameStatus_green (e : JumpTaskEnv)
    (hG : e.obstacleColor = Color.green) :
    colorsGameStatus e =
      ({ e with
          done := successPred e
          alreadyCollided :=
            e.alreadyCollided || ((!e.alreadyCollided) && failurePred e) },
        (!e.alreadyCollided) && failurePred e, successPred e) := by
  unfold JumpTaskEnvWithColors.colorsGameStatus
  rw [gameStatus_eq]
  dsimp only
  rw [if_pos (show ({ e with done := failurePred e || successPred e }
    : JumpTaskEnv).obstacleColor = Color.green from hG)]

/-- Every `colorsGameStatus` call on a GREEN environment re-establishes
`GreenInv` for the `alreadyCollided` value it saw. -/
theorem greenInv_of_gs (a0 : Bool) (e : JumpTaskEnv)
    (hG : e.obstacleColor = Color.green) (ha : e.alreadyCollided = a0) :
    GreenInv a0 (colorsGameStatus e).1 (colorsGameStatus e).2.1
      (colorsGameStatus e).2.2 := by
  rw [colorsGameStatus_green e hG]
  subst ha
  dsimp only
  refine ⟨hG, rfl, rfl, ?_, ?_⟩
  · intro hk
    simp only [Bool.and_eq_true, Bool.not_eq_true'] at hk
    obtain ⟨h1, h2⟩ := hk
    simp only [h1, h2]
    exact ⟨trivial, rfl⟩
  · intro hk
    rw [hk, Bool.or_false]

/-- The `(state, killed, exited)` triple produced by `stepCore` with the
colors game status on a GREEN environment satisfies `GreenInv` for the
pre-step `alreadyCollided` value. -/
theorem stepCore_colors_green (fuel : Nat) (e : JumpTaskEnv) (a : Int)
    (r : JumpTaskEnv × Bool × Bool) (hG : e.obstacleColor = Color.green)
    (h : stepCore colorsGameStatus fuel e a = some r) :
    GreenInv e.alreadyCollided r.1 r.2.1 r.2.2 := by
  have hG1 : (e.applyAction a).obstacleColor = Color.green := by
    rw [(applyAction_preserves e a).1]; exact hG
  have ha1 : (e.applyAction a).alreadyCollided = e.alreadyCollided :=
    (applyAction_preserves e a).2
  unfold stepCore at h
  dsimp only at h
  have hentry := greenInv_of_gs e.alreadyCollided (e.applyAction a) hG1 ha1
  rcases hgs : colorsGameStatus (e.applyAction a) with ⟨e₂, k₂, s₂⟩
  rw [hgs] at h hentry
  dsimp only at h hentry
  split at h
  · refine finishJumpLoop_inv colorsGameStatus (GreenInv e.alreadyCollided)
      ?_ fuel e₂ k₂ s₂ r hentry h
    intro e' hq hj
    have hG' : e'.continueJump.obstacleColor = Color.green := by
      rw [(continueJump_preserves e').1]; exact hq.1
    have ha' : e'.continueJump.alreadyCollided = e.alreadyCollided := by
      rw [(continueJump_preserves e').2.1]; exact hq.2.2.2.2 rfl
    exact greenInv_of_gs e.alreadyCollided e'.continueJump hG' ha'
  · obtain rfl := Option.some.inj h
    exact hentry

/-- **C1** (counterexample): `rightN 26` is a reachable terminal state (the
default environment walked right into the obstacle at x = 30; its terminal
flag is set), yet one more `step` with the legal action 0 moves the agent
from x = 26 to x = 27 — no reset happened in between. -/
theorem C1_counterexample :
    (rightN 26).done = true ∧ 0 ∈ legalActions (rightN 26) ∧
    (rightN 26).agentPosX = 26 ∧ (stepEnv (rightN 26) 0).agentPosX = 27 :=
  ⟨rfl, by decide, rfl, rfl⟩

/-- **C1** (amended): the base-class `step` never consults the terminal
flag: its outcome — the resulting agent position and the returned
reward/terminal/info value (or error) — is identical whether the flag was
true or false beforehand.  In particular a terminal state's agent position
keeps changing under further legal `step` calls exactly as a non-terminal
one's; the position is left unchanged only by the step-count-exhaustion
no-op, the illegal-action error, or an explicit reset. -/
theorem C1_step_ignores_terminal_flag (fuel : Nat) (e : JumpTaskEnv)
    (b : Bool) (a : Int) :
    Option.map (fun r => (r.1.agentPosX, r.1.agentPosY, r.2))
        (step fuel (setDone e b) a) =
      Option.map (fun r => (r.1.agentPosX, r.1.agentPosY, r.2))
        (step fuel e a) := by
  unfold step stepWith
  by_cases h1 : e.stepId > e.maxNumberOfSteps
  · rw [if_pos h1,
      if_pos (show (setDone e b).stepId > (setDone e b).maxNumberOfSteps from h1)]
    rfl
  · rw [if_neg h1,
      if_neg (show ¬ (setDone e b).stepId > (setDone e b).maxNumberOfSteps from h1)]
    by_cases h2 : a ∈ e.legalActions
    · rw [if_pos h2, if_pos (show a ∈ (setDone e b).legalActions from h2)]
      have hc : stepCore gameStatus fuel (setDone e b) a =
          stepCore gameStatus fuel e a := by
        unfold stepCore
        dsimp only
        rw [applyAction_setDone]
        rw [show gameStatus (setDone (e.applyAction a) b) =
          gameStatus (e.applyAction a) from gameStatus_setDone (e.applyAction a) b]
      rw [hc]
      rcases stepCore gameStatus fuel e a with _ | ⟨e₃, k, s⟩
      · rfl
      · rfl
    · rw [if_neg h2, if_neg (show ¬ a ∈ (setDone e b).legalActions from h2)]
      rfl

/-- **C3** (counterexample): an accepted, non-colliding, non-exiting step
(the first move-right of the default episode) returns reward 1, which is
exactly (new x − old x) with no per-step penalty subtracted: for either
constant of the reward table (`life = −1`, `exit = 100`) the claimed
formula `Δx − penalty` disagrees with the returned reward. -/
theorem C3_counterexample :
    (stepOutD 0 e0 0).reward = 1 ∧
    (stepEnv e0 0).agentPosX - e0.agentPosX = 1 ∧
    (stepOutD 0 e0 0).info = some false ∧
    e0.rewardsLife = -1 ∧ e0.rewardsExit = 100 ∧
    ¬ ((stepOutD 0 e0 0).reward =
        (stepEnv e0 0).agentPosX - e0.agentPosX - e0.rewardsLife) ∧
    ¬ ((stepOutD 0 e0 0).reward =
        (stepEnv e0 0).agentPosX - e0.agentPosX - e0.rewardsExit) :=
  ⟨rfl, rfl, rfl, rfl, rfl, by decide, by decide⟩

/-- **C3** (amended): for every accepted (non-exhausted, legal-action) step
of the base environment, the returned reward equals (agent x after the
step) minus (agent x at the start of the step), with no per-step penalty;
if a collision is detected on the post-step state the reward is instead
forced to the configured life penalty, replacing the positional term
entirely; otherwise if the agent has reached the right edge the configured
exit bonus is added to the positional term. -/
theorem C3_reward_no_penalty (fuel : Nat) (e : JumpTaskEnv) (a : Int)
    (e' : JumpTaskEnv) (out : StepOut)
    (hns : ¬ e.stepId > e.maxNumberOfSteps) (hleg : a ∈ e.legalActions)
    (h : step fuel e a = some (e', Except.ok out)) :
    out.reward =
      if failurePred e' then e.rewardsLife
      else if successPred e' then (e'.agentPosX - e.agentPosX) + e.rewardsExit
      else e'.agentPosX - e.agentPosX := by
  unfold step stepWith at h
  rw [if_neg hns, if_pos hleg] at h
  rcases hsc : stepCore gameStatus fuel e a with _ | ⟨e₃, k, s⟩
  · rw [hsc] at h; cases h
  · rw [hsc] at h
    dsimp only at h
    obtain ⟨hk, hs⟩ := stepCore_gameStatus_spec fuel e a (e₃, k, s) hsc
    dsimp only at hk hs
    simp only [Option.some.injEq, Prod.mk.injEq, Except.ok.injEq] at h
    obtain ⟨he, hout⟩ := h
    subst he
    subst hout
    subst hk
    subst hs
    show (if failurePred e₃ then e.rewardsLife
      else if successPred e₃ then -e.agentPosX + e₃.agentPosX + e.rewardsExit
      else -e.agentPosX + e₃.agentPosX) = _
    simp only
      [show failurePred { e₃ with stepId := e₃.stepId + 1 } = failurePred e₃ from rfl,
        show successPred { e₃ with stepId := e₃.stepId + 1 } = successPred e₃ from rfl,
        show ({ e₃ with stepId := e₃.stepId + 1 } : JumpTaskEnv).agentPosX
          = e₃.agentPosX from rfl]
    split_ifs <;> omega

/-- Witness for C3 (amended): the formula instantiated on the first
move-right step of the default episode. -/
theorem C3_witness :
    (stepOutD 0 e0 0).reward =
      if failurePred (stepEnv e0 0) then e0.rewardsLife
      else if successPred (stepEnv e0 0) then
        ((stepEnv e0 0).agentPosX - e0.agentPosX) + e0.rewardsExit
      else (stepEnv e0 0).agentPosX - e0.agentPosX :=
  C3_reward_no_penalty 0 e0 0 (stepEnv e0 0) (stepOutD 0 e0 0)
    (by decide) (by decide) (by rfl)

/-- **C4** (confirmed): the collision detector reports overlap between the
agent rectangle and an obstacle rectangle at `(sx, sy)` iff
`sx + obstacle.w > agent.x ∧ sx < agent.x + agent.w ∧
sy + obstacle.h > agent.y ∧ sy < agent.y + agent.h`; and whenever the two
rectangles merely share an edge (one of the four touching equalities holds,
a zero-width intersection), no collision is registered. -/
theorem C4_overlap_semantics (e : JumpTaskEnv) (sx sy : Int) :
    (overlappingObjects e sx sy = true ↔
      (sx + e.obstacleSizeW > e.agentPosX ∧ sx < e.agentPosX + e.agentSizeW ∧
        sy + e.obstacleSizeH > e.agentPosY ∧ sy < e.agentPosY + e.agentSizeH)) ∧
    ((sx + e.obstacleSizeW = e.agentPosX ∨ e.agentPosX + e.agentSizeW = sx ∨
        sy + e.obstacleSizeH = e.agentPosY ∨ e.agentPosY + e.agentSizeH = sy) →
      overlappingObjects e sx sy = false) := by
  constructor
  · simp only [overlappingObjects, Bool.and_eq_true, decide_eq_true_eq]
    omega
  · intro h
    rw [← Bool.not_eq_true]
    simp only [overlappingObjects, Bool.and_eq_true, decide_eq_true_eq]
    omega

/-- Witness for C4: in the default environment the agent occupies
x ∈ [0, 5); an obstacle whose left edge is exactly at x = 5 shares an edge
with it and is not reported as a collision. -/
theorem C4_witness : overlappingObjects e0 5 10 = false :=
  (C4_overlap_semantics e0 5 10).2 (Or.inr (Or.inl (by decide)))

/-- **C5** (confirmed): in every state whose step counter exceeds the
configured maximum, a `step` call with any action value raises no error,
forces the terminal flag, returns reward 0 with an empty info dict, and
changes nothing of the state but the terminal flag — in particular the
agent position is unchanged. -/
theorem C5_exhausted_step (fuel : Nat) (e : JumpTaskEnv) (action : Int)
    (h : e.stepId > e.maxNumberOfSteps) :
    step fuel e action =
      some ({ e with done := true }, Except.ok ⟨0, true, Option.none⟩) := by
  unfold step stepWith
  rw [if_pos h]

/-- Witness for C5: `eExh` is reachable (constructed, then one legal step
with `max_number_of_steps = 0`) and has `step_id = 1 > 0`; a step with the
(illegal!) action value 7 still returns normally with reward 0. -/
theorem C5_witness :
    step 0 eExh 7 = some ({ eExh with done := true }, Except.ok ⟨0, true, Option.none⟩) :=
  C5_exhausted_step 0 eExh 7 (by decide)

/-- **C6** (counterexample): `eExh` is a reachable state (one legal step
after construction with `max_number_of_steps = 0`), the action value 5 is
outside its legal action set, and yet `step` does not fail — it returns
normally (the exhaustion guard precedes the legality guard) and even
mutates the state by forcing the terminal flag. -/
theorem C6_counterexample :
    ¬ (5 ∈ legalActions eExh) ∧
    step 0 eExh 5 = some ({ eExh with done := true }, Except.ok ⟨0, true, Option.none⟩) :=
  ⟨by decide, rfl⟩

/-- **C6** (amended): in every state whose step counter has not yet
exceeded the configured maximum, a step call with an action value outside
the legal action set fails with the illegal-action error and returns the
state completely unchanged. -/
theorem C6_illegal_action_guard (fuel : Nat) (e : JumpTaskEnv) (action : Int)
    (hns : ¬ e.stepId > e.maxNumberOfSteps) (hleg : action ∉ e.legalActions) :
    step fuel e action = some (e, Except.error StepErr.illegalAction) := by
  unfold step stepWith
  rw [if_neg hns, if_neg hleg]

/-- Witness for C6 (amended): the freshly reset default environment rejects
action value 7 without mutating anything. -/
theorem C6_witness :
    step 0 e0 7 = some (e0, Except.error StepErr.illegalAction) :=
  C6_illegal_action_guard 0 e0 7 (by decide) (by decide)

/-- **C9** (code bug): constructing with the `two_obstacles` option set to
`True` does not enable the two-obstacle layout: `__init__` never stores the
argument, and the `self.reset()` it performs calls `_reset` with its default
`two_obstacles=False`, so the episode uses a single randomly-positioned
obstacle (here at the sampled x = 30); a later `reset()` keeps the
single-obstacle layout.  This contradicts the constructor's own docstring
(\"two_obstacles: puts two obstacles on the floor at a given location\"). -/
theorem C9_two_obstacles_ctor_arg_ignored :
    (init 60 60 10 5 10 0 1 30 9 10 false 600 true false false 30 10).1.twoObstacles = false ∧
    (init 60 60 10 5 10 0 1 30 9 10 false 600 true false false 30 10).1.obstaclePosition = 30 ∧
    (reset (init 60 60 10 5 10 0 1 30 9 10 false 600 true false false 30 10).1
        40 20).1.twoObstacles = false :=
  ⟨rfl, rfl, rfl⟩

/-- **C2** (counterexample): under the default configuration with floor
height 10 and the agent at x = 0, after the action sequence `[1]*16` the
agent's y position is 26 — it exceeds `floor_height + JUMP_HEIGHT = 25`
(the code flips to descending only once y is strictly greater than 25,
after the increment that reaches 26) and has not returned to 10. -/
theorem C2_counterexample :
    (jumpN 16).agentPosY = 26 ∧ ¬ ((jumpN 16).agentPosY ≤ 25) ∧
    e0.floorHeight + JUMP_HEIGHT = 25 :=
  ⟨rfl, by decide, rfl⟩

/-- **C2** (amended): under the default configuration with floor height 10
and the agent starting at x = 0, jumping repeatedly makes y rise to
`floor_height + JUMP_HEIGHT + 1 = 26` (reached after 16 jump steps) and
return to 10 after 32 steps, at which point the jump is over; y never
exceeds 26 and never goes below 10 at any tick of the 32-step trajectory. -/
theorem C2_jump_trajectory :
    (jumpN 16).agentPosY = 26 ∧
    (jumpN 32).agentPosY = 10 ∧
    (jumpN 32).jumpingActive = false ∧
    (∀ k, k ∈ List.range 33 → (jumpN k).agentPosY ≤ 26) ∧
    (∀ k, k ∈ List.range 33 → 10 ≤ (jumpN k).agentPosY) :=
  ⟨rfl, rfl, rfl, by decide, by decide⟩

/-- Witness for C2 (amended): the bound instantiated at tick 16. -/
theorem C2_witness : (jumpN 16).agentPosY ≤ 26 :=
  C2_jump_trajectory.2.2.2.1 16 (by decide)

/-- **C7** (counterexample): from the reachable mid-episode state `eS`
(agent at x = 3, floor height 10, `step_id = 3`), an explicit
single-obstacle reset to the out-of-range obstacle position 50 and floor
height 33 does fail, but the pre-existing state is mutated before the
error is raised: the agent position is reset to (0, 33), the floor height
is overwritten with the out-of-range value 33, and the step counter is
cleared; only the obstacle position is left unchanged. -/
theorem C7_counterexample :
    (resetInternal eS 50 33 false).2 = some ResetErr.outOfRangeObstacle ∧
    eS.floorHeight = 10 ∧ (resetInternal eS 50 33 false).1.floorHeight = 33 ∧
    eS.agentPosX = 3 ∧ (resetInternal eS 50 33 false).1.agentPosX = 0 ∧
    eS.stepId = 3 ∧ (resetInternal eS 50 33 false).1.stepId = 0 ∧
    (resetInternal eS 50 33 false).1.obstaclePosition = eS.obstaclePosition :=
  ⟨rfl, rfl, rfl, rfl, rfl, rfl, rfl, rfl⟩

/-- **C7** (amended): an explicit single-obstacle reset whose obstacle
position lies outside `[min_x, max_x)` or whose floor height lies outside
`[min_y, max_y)` fails with an out-of-range error, but only after having
overwritten the episode state: agent position, floor height (set to the new,
possibly out-of-range, value), jump phase, step counter and terminal flag
are all re-initialised before the validation runs; the stored obstacle
position alone is left unchanged. -/
theorem C7_out_of_range_reset (e : JumpTaskEnv) (op fh : Int)
    (h : op < e.minXPosition ∨ op ≥ e.maxXPosition ∨
      fh < e.minYPosition ∨ fh ≥ e.maxYPosition) :
    (resetInternal e op fh false).2.isSome = true ∧
    (resetInternal e op fh false).1 =
      { e with
        agentPosX := e.agentInitPos
        agentPosY := fh
        agentCurrentSpeed := e.agentSpeed * JUMP_HORIZONTAL_SPEED
        jumpingActive := false
        jumpingDir := JumpDir.none
        stepId := 0
        done := false
        floorHeight := fh
        twoObstacles := false } := by
  unfold resetInternal
  by_cases h1 : op < e.minXPosition ∨ op ≥ e.maxXPosition
  · simp [h1]
  · have h2 : fh < e.minYPosition ∨ fh ≥ e.maxYPosition := by tauto
    simp [h1, h2]

/-- Witness for C7 (amended): the failing reset of `C7_counterexample`
satisfies the amended description. -/
theorem C7_witness :
    (resetInternal eS 50 33 false).2.isSome = true ∧
    (resetInternal eS 50 33 false).1 =
      { eS with
        agentPosX := eS.agentInitPos
        agentPosY := 33
        agentCurrentSpeed := eS.agentSpeed * JUMP_HORIZONTAL_SPEED
        jumpingActive := false
        jumpingDir := JumpDir.none
        stepId := 0
        done := false
        floorHeight := 33
        twoObstacles := false } :=
  C7_out_of_range_reset eS 50 33 (by decide)

/-- **C8** (counterexample): in the GREEN color variant with the agent
starting at x = 25 (obstacle at 30, floor 10), the first jump step collides
mid-air (the returned `info['collision']` is true, the agent ends the step
at y = 11 ≠ floor), and the returned reward is the life penalty −1 with no
collision bonus added, although `rewards['collision'] = 100`; the
`already_collided` flag is latched nevertheless, so the next overlapping
step reports no collision and pays no bonus either — the bonus is never
paid in this episode, contradicting "paid exactly once per episode on the
first colliding step". -/
theorem C8_counterexample :
    colorsStepInfo 0 eColG 1 = some (some true) ∧
    colorsStepReward 0 eColG 1 = some (-1) ∧
    eColG.rewardsCollision = 100 ∧
    ¬ ((-1 : Int) = -1 + 100) ∧
    (colorsStepEnv eColG 1).agentPosY = 11 ∧
    (colorsStepEnv eColG 1).floorHeight = 10 ∧
    (colorsStepEnv eColG 1).alreadyCollided = true ∧
    colorsStepInfo 0 (colorsStepEnv eColG 1) 1 = some (some false) ∧
    colorsStepReward 0 (colorsStepEnv eColG 1) 1 = some 1 :=
  ⟨rfl, rfl, rfl, by decide, rfl, rfl, rfl, rfl, rfl⟩

/-- **C8** (amended): in the color variant with a GREEN obstacle, for every
accepted (non-exhausted, legal-action) step: a reported collision implies
the episode had not collided before and latches `already_collided` (so a
collision is reported at most once per episode, even if the overlap
persists); the terminal flag is driven solely by the success predicate
(collision never ends the episode); and the returned reward is the base
reward (life penalty on reported collision, else positional term plus exit
bonus on success) plus the collision bonus `rewards['collision']`, the
bonus being added only when the agent ends the colliding step at floor
height — a mid-air first collision pays no bonus, then or ever after. -/
theorem C8_green_collision_semantics (fuel : Nat) (e : JumpTaskEnv) (a : Int)
    (e' : JumpTaskEnv) (out : StepOut)
    (hG : e.obstacleColor = Color.green)
    (hns : ¬ e.stepId > e.maxNumberOfSteps) (hleg : a ∈ e.legalActions)
    (h : colorsStep fuel e a = some (e', Except.ok out)) :
    (out.info = some true → e.alreadyCollided = false ∧ e'.alreadyCollided = true) ∧
    (out.info = some false → e'.alreadyCollided = e.alreadyCollided) ∧
    e'.done = successPred e' ∧
    out.reward =
      (if out.info = some true then e.rewardsLife
        else if successPred e' then (e'.agentPosX - e.agentPosX) + e.rewardsExit
        else e'.agentPosX - e.agentPosX)
      + (if e'.agentPosY = e'.floorHeight ∧ out.info = some true
          then e'.rewardsCollision else 0) := by
  unfold JumpTaskEnvWithColors.colorsStep at h
  rcases hw : stepWith colorsGameStatus fuel e a with _ | ⟨e₄, r₄⟩
  · rw [hw] at h; cases h
  · rw [hw] at h
    unfold stepWith at hw
    rw [if_neg hns, if_pos hleg] at hw
    rcases hsc : stepCore colorsGameStatus fuel e a with _ | ⟨e₃, k, s⟩
    · rw [hsc] at hw; cases hw
    · rw [hsc] at hw
      dsimp only at hw
      obtain ⟨hIc, hId, hIs, hIk, hIk0⟩ :=
        stepCore_colors_green fuel e a (e₃, k, s) hG hsc
      dsimp only at hId hIs hIk hIk0
      subst hIs
      simp only [Option.some.injEq, Prod.mk.injEq] at hw
      obtain ⟨he₄, hr₄⟩ := hw
      subst he₄
      subst hr₄
      cases k with
      | false =>
        dsimp only at h
        simp only [Bool.false_eq_true, if_false] at h
        rw [ite_self] at h
        simp only [Option.some.injEq, Prod.mk.injEq, Except.ok.injEq] at h
        obtain ⟨he, hout⟩ := h
        subst he
        subst hout
        refine ⟨?_, ?_, ?_, ?_⟩
        · intro hx; simp at hx
        · intro _; exact hIk0 rfl
        · exact hId
        · dsimp only
          simp only [Option.some.injEq, Bool.false_eq_true, if_false,
            and_false, add_zero,
            show successPred { e₃ with stepId := e₃.stepId + 1 }
              = successPred e₃ from rfl]
          split_ifs <;> omega
      | true =>
        dsimp only at h
        simp only [eq_self_iff_true, if_true] at h
        split at h
        case isTrue hy =>
          simp only [Option.some.injEq, Prod.mk.injEq, Except.ok.injEq] at h
          obtain ⟨he, hout⟩ := h
          subst he
          subst hout
          refine ⟨fun _ => hIk rfl, ?_, hId, ?_⟩
          · intro hx; simp at hx
          · dsimp only
            rw [if_pos (rfl : (some true : Option Bool) = some true),
              if_pos ⟨hy, (rfl : (some true : Option Bool) = some true)⟩]
        case isFalse hy =>
          simp only [Option.some.injEq, Prod.mk.injEq, Except.ok.injEq] at h
          obtain ⟨he, hout⟩ := h
          subst he
          subst hout
          refine ⟨fun _ => hIk rfl, ?_, hId, ?_⟩
          · intro hx; simp at hx
          · dsimp only
            rw [if_pos (rfl : (some true : Option Bool) = some true),
              if_neg (show ¬(e₃.agentPosY = e₃.floorHeight ∧
                (some true : Option Bool) = some true) from fun hc => hy hc.1),
              add_zero]

/-- Witness for C8 (amended): the semantics instantiated on a ground
collision: from `eColG` one move-right step collides at floor height and
pays the life penalty plus the 100 bonus (reward 99). -/
theorem C8_witness :
    ((colorsStepOutD 0 eColG 0).info = some true →
      eColG.alreadyCollided = false ∧ (colorsStepEnv eColG 0).alreadyCollided = true) ∧
    ((colorsStepOutD 0 eColG 0).info = some false →
      (colorsStepEnv eColG 0).alreadyCollided = eColG.alreadyCollided) ∧
    (colorsStepEnv eColG 0).done = successPred (colorsStepEnv eColG 0) ∧
    (colorsStepOutD 0 eColG 0).reward =
      (if (colorsStepOutD 0 eColG 0).info = some true then eColG.rewardsLife
        else if successPred (colorsStepEnv eColG 0) then
          ((colorsStepEnv eColG 0).agentPosX - eColG.agentPosX) + eColG.rewardsExit
        else (colorsStepEnv eColG 0).agentPosX - eColG.agentPosX)
      + (if (colorsStepEnv eColG 0).agentPosY = (colorsStepEnv eColG 0).floorHeight ∧
            (colorsStepOutD 0 eColG 0).info = some true
          then (colorsStepEnv eColG 0).rewardsCollision else 0) :=
  C8_green_collision_semantics 0 eColG 0 (colorsStepEnv eColG 0)
    (colorsStepOutD 0 eColG 0) (by rfl) (by decide) (by decide) (by rfl)

/-- **C10** (counterexample): the observation actually returned by a step of
the relative-coordinate variant is the length-2 vector `[-29, 0]`, while the
`state_shape` declared at construction for this variant is `(3,)`. -/
theorem C10_counterexample :
    coordStepObs 0 eCoord 0 = some [-29, 0] ∧
    ([-29, 0] : List Int).length = 2 ∧
    coordStateShape = [3] ∧
    ¬ (([-29, 0] : List Int).length = 3) :=
  ⟨rfl, rfl, rfl, by decide⟩

/-- **C10** (amended): every observation returned by the
relative-coordinate variant's `reset` and `step` equals the vector
`(agent.x − obstacle.x, agent.y − floor_height)` evaluated on the post-call
state, and is a length-2 vector (matching the 2-element `low`/`high` bounds
of the declared observation space, but not the separately declared
`state_shape` of `(3,)`). -/
theorem C10_coordinate_observation :
    (∀ fuel (e e' : JumpTaskEnv) a obs out,
      coordStep fuel e a = some (e', Except.ok (obs, out)) →
        obs = [e'.agentPosX - e'.obstaclePosition, e'.agentPosY - e'.floorHeight] ∧
        obs.length = 2) ∧
    (∀ (e : JumpTaskEnv) op fh r obs,
      coordReset e op fh = (r, some obs) →
        obs = [r.1.agentPosX - r.1.obstaclePosition, r.1.agentPosY - r.1.floorHeight] ∧
        obs.length = 2) := by
  constructor
  · intro fuel e e' a obs out h
    unfold JumpTaskEnvWithCoordinates.coordStep at h
    rcases hs : step fuel e a with _ | ⟨e₁, r⟩
    · rw [hs] at h; cases h
    · rw [hs] at h
      cases r with
      | error err => simp only at h; cases h
      | ok out₁ =>
        simp only [Option.some.injEq, Prod.mk.injEq, Except.ok.injEq] at h
        obtain ⟨he, hobs, -⟩ := h
        subst he
        rw [← hobs]
        exact ⟨rfl, rfl⟩
  · intro e op fh r obs h
    unfold JumpTaskEnvWithCoordinates.coordReset at h
    simp only [Prod.mk.injEq] at h
    obtain ⟨hr, hobs⟩ := h
    subst hr
    by_cases herr : (reset e op fh).2 = Option.none
    · rw [if_pos herr] at hobs
      obtain hoo := Option.some.inj hobs
      rw [← hoo]
      exact ⟨rfl, rfl⟩
    · rw [if_neg herr] at hobs; cases hobs

/-- Witness for C10 (amended): the step observation of `C10_counterexample`
equals the coordinate formula on the post-step state. -/
theorem C10_witness :
    ([-29, 0] : List Int) =
      [(stepEnv eCoord 0).agentPosX - (stepEnv eCoord 0).obstaclePosition,
        (stepEnv eCoord 0).agentPosY - (stepEnv eCoord 0).floorHeight] ∧
    ([-29, 0] : List Int).length = 2 :=
  C10_coordinate_observation.1 0 eCoord (stepEnv eCoord 0) 0 [-29, 0]
    (stepOutD 0 eCoord 0) (by rfl)
